import Mathlib

/-!
Verification of the manifest lint-level resolution and diagnostic reporting
engine (cargo's `[lints.cargo]` handling).  The development shallowly embeds
the two generations of the subsystem found in the repository:

* `LintsMod` embeds `src/cargo/lints/mod.rs` (the newer generation, with
  CLI-flag gating and the graceful skip when a span cannot be located);
* `UtilLints` embeds `src/cargo/util/lints.rs` (the older generation, with the
  full validation pass `analyze_cargo_lints_table`, `verify_feature_enabled`
  and `output_unknown_lints`).

Effectful Rust code is embedded as pure functions: diagnostic emission through
the shell sink becomes an explicit `List Emitted` result, the `&mut usize`
error counter becomes a returned `Nat` delta, and a Rust `panic!` (or the
`unreachable!` in `to_diagnostic_level`) becomes an `Option.none` result, so a
`none` result means the pass aborts abnormally.  Machine integers stay far from
overflow here (error counts, i8 priorities), so `Nat`/`Int` are used directly.
Editions form an ordered enumeration in the source and are embedded as `Nat`
ordered by `≤`.
-/

set_option linter.unusedVariables false

/-- A half-open byte range inside a document (Rust `Range<usize>`). -/
structure Srange where
  start : Nat
  stop : Nat
deriving DecidableEq, Repr

/-- `TomlSpan` from the source: the byte ranges of a located key and of its
value. -/
structure TomlSpan where
  key : Srange
  value : Srange
deriving DecidableEq, Repr

/-- A parsed, span-annotated TOML value tree (`toml::de::DeValue`).  A table
entry carries the key text, the key's span, the whole value's span, and the
value; an array item carries its span and its value. -/
inductive DeValue where
  | string (s : String)
  | boolean (b : Bool)
  | integer (n : Int)
  | array (items : List (Srange × DeValue))
  | table (entries : List (String × Srange × Srange × DeValue))

/-- A parsed table (`toml::de::DeTable`): an association list of entries.  TOML
parsing never produces duplicate keys, so `List.find?` matches the map's
`get_key_value`. -/
abbrev DeTable := List (String × Srange × Srange × DeValue)

/-- Key lookup in a parsed table (`DeTable::get_key_value`). -/
def findEntry (t : DeTable) (k : String) : Option (String × Srange × Srange × DeValue) :=
  t.find? (fun e => e.1 == k)

/-- The predicate used in the array branch of the span lookup: the array
element is a string literal equal to the next path segment. -/
def isStringMatch (next : String) (it : Srange × DeValue) : Bool :=
  match it.2 with
  | DeValue.string s => s == next
  | _ => false

/-- `get_key_value_span` / `get_key_value` from the source: walk a dotted path
through a parsed document.  At each step the current segment is looked up in
the current table (`none` when absent).  On the last segment the key/value
spans are returned.  Otherwise, a table value becomes the new current table; an
array value consumes the next segment and returns the first array element that
is a string equal to it (the array's key span paired with the element's span);
any other value leaves the current table unchanged, exactly as in the source's
loop where neither `as_table` nor `as_array` fires. -/
def getKeyValueSpan (t : DeTable) (path : List String) : Option TomlSpan :=
  match path with
  | [] => none
  | [k] =>
    match findEntry t k with
    | none => none
    | some (_, ks, vs, _) => some ⟨ks, vs⟩
  | k :: next :: rest =>
    match h : findEntry t k with
    | none => none
    | some (_, ks, _, DeValue.table t2) => getKeyValueSpan t2 (next :: rest)
    | some (_, ks, _, DeValue.array items) =>
      (items.find? (isStringMatch next)).map (fun it => ⟨ks, it.1⟩)
    | some (_, _, _, DeValue.string _) => getKeyValueSpan t (next :: rest)
    | some (_, _, _, DeValue.boolean _) => getKeyValueSpan t (next :: rest)
    | some (_, _, _, DeValue.integer _) => getKeyValueSpan t (next :: rest)
termination_by sizeOf t + path.length
decreasing_by
  · have hm := List.mem_of_find?_eq_some h
    have h1 := List.sizeOf_lt_of_mem hm
    simp at h1 ⊢
    omega
  · simp
  · simp
  · simp

/-- Replace every occurrence of the character `a` by `b`.  Models Rust's
`str::replace` for the single-character patterns used in the source
(`"_" → "-"` and `"-" → "_"`). -/
def replaceChar (s : String) (a b : Char) : String :=
  ⟨s.data.map (fun c => if c = a then b else c)⟩

/-- `LintLevel` from the source. -/
inductive LintLevel where
  | allow
  | warn
  | deny
  | forbid
deriving DecidableEq, Repr

/-- `TomlLintLevel` from `cargo_util_schemas::manifest`. -/
inductive TomlLintLevel where
  | allow
  | warn
  | deny
  | forbid
deriving DecidableEq, Repr

/-- The `From<TomlLintLevel> for LintLevel` conversion. -/
def TomlLintLevel.toLintLevel : TomlLintLevel → LintLevel
  | TomlLintLevel.allow => LintLevel.allow
  | TomlLintLevel.warn => LintLevel.warn
  | TomlLintLevel.deny => LintLevel.deny
  | TomlLintLevel.forbid => LintLevel.forbid

/-- `LintLevel::is_error`: true exactly for Forbid and Deny. -/
def LintLevel.isError : LintLevel → Bool
  | LintLevel.forbid => true
  | LintLevel.deny => true
  | _ => false

/-- `LintLevel::force`: display even when output would be suppressed; false
only for Allow. -/
def LintLevel.force : LintLevel → Bool
  | LintLevel.allow => false
  | LintLevel.warn => true
  | LintLevel.deny => true
  | LintLevel.forbid => true

/-- The `Display` impl for `LintLevel`. -/
def LintLevel.display : LintLevel → String
  | LintLevel.allow => "allow"
  | LintLevel.warn => "warn"
  | LintLevel.deny => "deny"
  | LintLevel.forbid => "forbid"

/-- `LintLevelReason` from the source; the edition reason carries the active
edition. -/
inductive LintLevelReason where
  | default
  | edition (e : Nat)
  | package
deriving DecidableEq, Repr

/-- The `Display` impl for `LintLevelReason`. -/
def LintLevelReason.display : LintLevelReason → String
  | LintLevelReason.default => "by default"
  | LintLevelReason.edition e => "in edition " ++ toString e
  | LintLevelReason.package => "in `[lints]`"

/-- A declared entry of the `[lints.cargo]` table (`TomlLint`): a level plus a
priority (an `i8` in the schema layer, embedded as `Int`). -/
structure TomlLint where
  level : TomlLintLevel
  priority : Int
deriving DecidableEq, Repr

/-- The declared lint settings table (`TomlToolLints`), an ordered map from
name to declared entry. -/
abbrev TomlToolLints := List (String × TomlLint)

/-- Map lookup in the declared settings table (`TomlToolLints::get`). -/
def tomlLintsGet (t : TomlToolLints) (name : String) : Option TomlLint :=
  (t.find? (fun e => e.1 == name)).map (fun e => e.2)

/-- The keys of the declared settings table, in declaration order. -/
def tomlLintsKeys (t : TomlToolLints) : List String :=
  t.map (fun e => e.1)

/-- The edition-based override actually applicable at the active edition: the
source's `edition_lint_opts.and_then(|(e, l)| if edition >= *e ...)`. -/
def editionLevelOf (opts : Option (Nat × LintLevel)) (edition : Nat) : Option LintLevel :=
  opts.bind (fun p => if p.1 ≤ edition then some p.2 else none)

/-- The common core of `Lint::level` in both generations, given the already
looked-up declared entries: Forbid escalation first (lint, group, applicable
edition override, group default, in that order), then declared levels decided
by priority (`Ordering::Less` sends the decision to the group, `Greater` and
`Equal` to the lint), then the applicable edition override, then the group
default.  The guard order matches the source's `match` arms exactly. -/
def resolveDeclared (lintEntry groupEntry : Option TomlLint) (editionLevel : Option LintLevel)
    (defaultLevel : LintLevel) (edition : Nat) : LintLevel × LintLevelReason :=
  if (lintEntry.map TomlLint.level) = some TomlLintLevel.forbid then
    (LintLevel.forbid, LintLevelReason.package)
  else if (groupEntry.map TomlLint.level) = some TomlLintLevel.forbid then
    (LintLevel.forbid, LintLevelReason.package)
  else if editionLevel = some LintLevel.forbid then
    (LintLevel.forbid, LintLevelReason.edition edition)
  else if defaultLevel = LintLevel.forbid then
    (LintLevel.forbid, LintLevelReason.default)
  else
    match lintEntry, groupEntry with
    | some l, some g =>
      (if l.priority < g.priority then g.level.toLintLevel else l.level.toLintLevel,
        LintLevelReason.package)
    | some l, none => (l.level.toLintLevel, LintLevelReason.package)
    | none, some g => (g.level.toLintLevel, LintLevelReason.package)
    | none, none =>
      match editionLevel with
      | some el => (el, LintLevelReason.edition edition)
      | none => (defaultLevel, LintLevelReason.default)

/-! The structured diagnostic report model (`annotate_snippets`): a report is a
list of groups; a group has a severity-tagged title (primary or secondary) and
elements that are either an annotated source snippet or a note/help message. -/

/-- A diagnostic severity (`annotate_snippets::Level`). -/
inductive DiagLevel where
  | error
  | warning
  | note
  | help
deriving DecidableEq, Repr

/-- The kind of a span marker inside a snippet (`AnnotationKind`). -/
inductive AnnKind where
  | primary
  | context
deriving DecidableEq, Repr

/-- A span marker inside a snippet: kind, byte range, optional label. -/
structure Ann where
  kind : AnnKind
  span : Srange
  label : Option String
deriving DecidableEq, Repr

/-- A source snippet element: raw text, display path, markers. -/
structure SnippetData where
  source : String
  path : String
  anns : List Ann
deriving DecidableEq, Repr

/-- One element of a report group. -/
inductive GroupElement where
  | snippet (s : SnippetData)
  | message (level : DiagLevel) (text : String)
deriving DecidableEq, Repr

/-- A report group (`annotate_snippets::Group`): a title (with severity and
whether it is a primary or secondary title) plus its elements. -/
structure DiagGroup where
  level : DiagLevel
  primary : Bool
  title : String
  elements : List GroupElement
deriving DecidableEq, Repr

/-- One report pushed to the shell sink via `print_report`, together with its
force-display flag. -/
structure Emitted where
  report : List DiagGroup
  force : Bool
deriving DecidableEq, Repr

/-- `LintLevel::to_diagnostic_level`; the source is `unreachable!` on Allow,
embedded as `none`. -/
def LintLevel.toDiagnosticLevel : LintLevel → Option DiagLevel
  | LintLevel.allow => none
  | LintLevel.warn => some DiagLevel.warning
  | LintLevel.deny => some DiagLevel.error
  | LintLevel.forbid => some DiagLevel.error

/-- All help-message texts of a group, in order. -/
def groupHelps (g : DiagGroup) : List String :=
  g.elements.filterMap (fun el =>
    match el with
    | GroupElement.message DiagLevel.help t => some t
    | _ => none)

/-- All help-message texts of an emitted report. -/
def emittedHelps (e : Emitted) : List String :=
  (e.report.map groupHelps).flatten

namespace LintsMod

/-! Embedding of `src/cargo/lints/mod.rs` (the newer generation). -/

/-- `Gated` from `lints/mod.rs`: a feature gate is either a CLI unstable flag
or a named manifest unstable feature.  Flags and features are identified by
name. -/
inductive Gated where
  | cli (flag : String)
  | feature (f : String)
deriving DecidableEq, Repr

/-- `LintGroup` from `lints/mod.rs`. -/
structure LintGroup where
  name : String
  default_level : LintLevel
  desc : String
  feature_gate : Option Gated
  hidden : Bool
deriving DecidableEq, Repr

def COMPLEXITY : LintGroup :=
  { name := "complexity"
    desc := "code that does something simple but in a complex way"
    default_level := LintLevel.warn
    feature_gate := none
    hidden := false }

def CORRECTNESS : LintGroup :=
  { name := "correctness"
    desc := "code that is outright wrong or useless"
    default_level := LintLevel.deny
    feature_gate := none
    hidden := false }

def NURSERY : LintGroup :=
  { name := "nursery"
    desc := "new lints that are still under development"
    default_level := LintLevel.allow
    feature_gate := none
    hidden := false }

def PEDANTIC : LintGroup :=
  { name := "pedantic"
    desc := "lints which are rather strict or have occasional false positives"
    default_level := LintLevel.allow
    feature_gate := none
    hidden := false }

def PERF : LintGroup :=
  { name := "perf"
    desc := "code that can be written to run faster"
    default_level := LintLevel.warn
    feature_gate := none
    hidden := false }

def RESTRICTION : LintGroup :=
  { name := "restriction"
    desc := "lints which prevent the use of Cargo features"
    default_level := LintLevel.allow
    feature_gate := none
    hidden := false }

def STYLE : LintGroup :=
  { name := "style"
    desc := "code that should be written in a more idiomatic way"
    default_level := LintLevel.warn
    feature_gate := none
    hidden := false }

def SUSPICIOUS : LintGroup :=
  { name := "suspicious"
    desc := "code that is most likely wrong or useless"
    default_level := LintLevel.warn
    feature_gate := none
    hidden := false }

/-- This lint group is only to be used for testing purposes. -/
def TEST_DUMMY_UNSTABLE : LintGroup :=
  { name := "test_dummy_unstable"
    desc := "test_dummy_unstable is meant to only be used in tests"
    default_level := LintLevel.allow
    feature_gate := some (Gated.feature "test_dummy_unstable")
    hidden := true }

def LINT_GROUPS : List LintGroup :=
  [COMPLEXITY, CORRECTNESS, NURSERY, PEDANTIC, PERF, RESTRICTION, STYLE, SUSPICIOUS,
    TEST_DUMMY_UNSTABLE]

/-- `Lint` from `lints/mod.rs`.  The `&'static LintGroup` reference is
embedded by value; `docs` is presentation-only. -/
structure Lint where
  name : String
  desc : String
  primary_group : LintGroup
  edition_lint_opts : Option (Nat × LintLevel)
  feature_gate : Option Gated
  docs : Option String
deriving DecidableEq, Repr

/-- The gate check opening `Lint::level`:
`feature_gate.is_some_and(|f| match f { Cli(flag) => cli_unstable.is_enabled(flag),
Feature(f) => !unstable_features.is_enabled(f) })`.  Note the inverted polarity
of the two gate kinds, exactly as in the source. -/
def gateBlocked (g : Option Gated) (unstableFeatures cliUnstable : String → Bool) : Bool :=
  match g with
  | none => false
  | some (Gated.cli flag) => cliUnstable flag
  | some (Gated.feature f) => !unstableFeatures f

/-- `Lint::level` from `lints/mod.rs`: the gated short-circuit to
`(Allow, Default)`, then the shared precedence core. -/
def Lint.level (self : Lint) (pkgLints : TomlToolLints) (edition : Nat)
    (unstableFeatures cliUnstable : String → Bool) : LintLevel × LintLevelReason :=
  if gateBlocked self.feature_gate unstableFeatures cliUnstable then
    (LintLevel.allow, LintLevelReason.default)
  else
    resolveDeclared (tomlLintsGet pkgLints self.name)
      (tomlLintsGet pkgLints self.primary_group.name)
      (editionLevelOf self.edition_lint_opts edition)
      self.primary_group.default_level edition

/-- The capability set shared by the two `ManifestFor` variants: optional raw
contents, optional parsed document, edition, enabled unstable features. -/
structure ManifestForData where
  contents : Option String
  document : Option DeTable
  edition : Nat
  unstableFeatures : String → Bool

/-- `ManifestFor` from `lints/mod.rs`: a package-scope or workspace-scope view
of a manifest. -/
inductive ManifestFor where
  | package (d : ManifestForData)
  | workspace (d : ManifestForData)

def ManifestFor.data : ManifestFor → ManifestForData
  | ManifestFor.package d => d
  | ManifestFor.workspace d => d

def ManifestFor.contents (m : ManifestFor) : Option String :=
  m.data.contents

def ManifestFor.document (m : ManifestFor) : Option DeTable :=
  m.data.document

def ManifestFor.edition (m : ManifestFor) : Nat :=
  m.data.edition

def ManifestFor.unstableFeatures (m : ManifestFor) : String → Bool :=
  m.data.unstableFeatures

/-- The scope-determined key path used by `report_feature_not_enabled`:
`["lints","cargo",name]` for a package manifest, prefixed with `"workspace"`
for a workspace manifest. -/
def keyPathFor (m : ManifestFor) (lintName : String) : List String :=
  match m with
  | ManifestFor.package _ => ["lints", "cargo", lintName]
  | ManifestFor.workspace _ => ["workspace", "lints", "cargo", lintName]

/-- `report_feature_not_enabled` from `lints/mod.rs`.  Returns the emitted
reports and the error-count delta.  When document and contents are both
present but the span lookup fails, the source returns `Ok(())` early without
emitting or counting — embedded as `([], 0)`.  When document or contents is
absent, the report is emitted without a snippet.  This function is total: the
newer generation never panics here. -/
def reportFeatureNotEnabled (lintName featureGate : String) (manifest : ManifestFor)
    (manifestPath : String) : List Emitted × Nat :=
  let dashFeatureName := replaceChar featureGate '_' '-'
  let title := "use of unstable lint `" ++ lintName ++ "`"
  let label := "this is behind `" ++ dashFeatureName ++ "`, which is not enabled"
  let help := "consider adding `cargo-features = [\"" ++ dashFeatureName ++
    "\"]` to the top of the manifest"
  match manifest.document, manifest.contents with
  | some doc, some contents =>
    match getKeyValueSpan doc (keyPathFor manifest lintName) with
    | none => ([], 0)
    | some span =>
      ([⟨[⟨DiagLevel.error, true, title,
          [GroupElement.snippet ⟨contents, manifestPath,
            [⟨AnnKind.primary, span.key, some label⟩]⟩,
            GroupElement.message DiagLevel.help help]⟩], true⟩], 1)
  | _, _ =>
    ([⟨[⟨DiagLevel.error, true, title,
        [GroupElement.message DiagLevel.help help]⟩], true⟩], 1)

end LintsMod

namespace UtilLints

/-! Embedding of `src/cargo/util/lints.rs` (the older generation).  Feature
gates here are plain named unstable features (no CLI variant). -/

/-- `LintGroup` from `util/lints.rs`. -/
structure LintGroup where
  name : String
  default_level : LintLevel
  desc : String
  feature_gate : Option String
deriving DecidableEq, Repr

def CORRECTNESS : LintGroup :=
  { name := "correctness"
    desc := "code that is outright wrong or useless"
    default_level := LintLevel.deny
    feature_gate := none }

def NURSERY : LintGroup :=
  { name := "nursery"
    desc := "new lints that are still under development"
    default_level := LintLevel.allow
    feature_gate := none }

def PEDANTIC : LintGroup :=
  { name := "pedantic"
    desc := "lints which are rather strict or have occasional false positives"
    default_level := LintLevel.allow
    feature_gate := none }

def RESTRICTION : LintGroup :=
  { name := "restriction"
    desc := "lints which prevent the use of language and library features"
    default_level := LintLevel.allow
    feature_gate := none }

def STYLE : LintGroup :=
  { name := "style"
    desc := "code that should be written in a more idiomatic wa"
    default_level := LintLevel.warn
    feature_gate := none }

def SUSPICIOUS : LintGroup :=
  { name := "suspicious"
    desc := "code that is most likely wrong or useless"
    default_level := LintLevel.warn
    feature_gate := none }

/-- This lint group is only to be used for testing purposes. -/
def TEST_DUMMY_UNSTABLE : LintGroup :=
  { name := "test_dummy_unstable"
    desc := "test_dummy_unstable is meant to only be used in tests"
    default_level := LintLevel.allow
    feature_gate := some ("test_dummy_unstable") }

def LINT_GROUPS : List LintGroup :=
  [CORRECTNESS, NURSERY, PEDANTIC, RESTRICTION, STYLE, SUSPICIOUS, TEST_DUMMY_UNSTABLE]

/-- `Lint` from `util/lints.rs`. -/
structure Lint where
  name : String
  desc : String
  primary_group : LintGroup
  edition_lint_opts : Option (Nat × LintLevel)
  feature_gate : Option String
  docs : Option String
deriving DecidableEq, Repr

/-- `Lint::level` from `util/lints.rs`: identical to the newer generation's
resolver except that the gate is a plain unstable feature
(`feature_gate.is_some_and(|f| !unstable_features.is_enabled(f))`). -/
def Lint.level (self : Lint) (pkgLints : TomlToolLints) (edition : Nat)
    (unstableFeatures : String → Bool) : LintLevel × LintLevelReason :=
  if self.feature_gate.any (fun f => !unstableFeatures f) then
    (LintLevel.allow, LintLevelReason.default)
  else
    resolveDeclared (tomlLintsGet pkgLints self.name)
      (tomlLintsGet pkgLints self.primary_group.name)
      (editionLevelOf self.edition_lint_opts edition)
      self.primary_group.default_level edition

/-- `Lint::emitted_source`: the note text explaining why a lint fired. -/
def Lint.emittedSource (self : Lint) (lintLevel : LintLevel) (reason : LintLevelReason) : String :=
  "`cargo::" ++ self.name ++ "` is set to `" ++ lintLevel.display ++ "` " ++ reason.display

/-- This lint is only to be used for testing purposes. -/
def IM_A_TEAPOT : Lint :=
  { name := "im_a_teapot"
    desc := "`im_a_teapot` is specified"
    primary_group := TEST_DUMMY_UNSTABLE
    edition_lint_opts := none
    feature_gate := some ("test_dummy_unstable")
    docs := none }

def UNKNOWN_LINTS : Lint :=
  { name := "unknown_lints"
    desc := "unknown lint"
    primary_group := SUSPICIOUS
    edition_lint_opts := none
    feature_gate := none
    docs := some ("
### What it does
Checks for unknown lints in the `[lints.cargo]` table

### Why it is bad
- The lint name could be misspelled, leading to confusion as to why it is
  not working as expected
- The unknown lint could end up causing an error if `cargo` decides to make
  a lint with the same name in the future

### Example
```toml
[lints.cargo]
this-lint-does-not-exist = \"warn\"
```
") }

def LINTS : List Lint := [IM_A_TEAPOT, UNKNOWN_LINTS]

/-- The package manifest view used by the older generation: raw contents,
parsed document (both always present here), edition and enabled unstable
features. -/
structure Manifest where
  contents : String
  document : DeTable
  edition : Nat
  unstableFeatures : String → Bool

/-- The span search shared by `verify_feature_enabled` and
`output_unknown_lints`: try the package manifest at `lints.cargo.<name>`
first, then the workspace document at `workspace.lints.cargo.<name>`; `none`
embeds the source's `panic!` when the name is found in neither. -/
def findLintSpan (manifest : Manifest) (manifestPath wsContents : String)
    (wsDocument : DeTable) (wsPath lintName : String) : Option (String × String × TomlSpan) :=
  match getKeyValueSpan manifest.document ["lints", "cargo", lintName] with
  | some span => some (manifest.contents, manifestPath, span)
  | none =>
    match getKeyValueSpan wsDocument ["workspace", "lints", "cargo", lintName] with
    | some lintSpan => some (wsContents, wsPath, lintSpan)
    | none => none

/-- The secondary "`cargo::<name>` was inherited" group appended when the
package manifest declares `lints.workspace = true` (i.e. when
`lints.workspace` has a span in the package document). -/
def inheritedNoteGroups (manifest : Manifest) (manifestPath lintName : String) : List DiagGroup :=
  match getKeyValueSpan manifest.document ["lints", "workspace"] with
  | some inheritSpan =>
    [⟨DiagLevel.note, false, "`cargo::" ++ lintName ++ "` was inherited",
      [GroupElement.snippet ⟨manifest.contents, manifestPath,
        [⟨AnnKind.context, ⟨inheritSpan.key.start, inheritSpan.value.stop⟩, none⟩]⟩]⟩]
  | none => []

/-- `verify_feature_enabled` from `util/lints.rs`: when the gate feature is
not enabled, build the "use of unstable lint" error report (primary snippet at
the located key span with the gate label, plus the help message, plus the
inherited note when applicable), emit it un-forced and count one error; when
the span is found in neither document the source panics (`none` here).  When
the feature is enabled, nothing happens. -/
def verifyFeatureEnabled (lintName featureGate : String) (manifest : Manifest)
    (manifestPath wsContents : String) (wsDocument : DeTable) (wsPath : String) :
    Option (List Emitted × Nat) :=
  if manifest.unstableFeatures featureGate then some ([], 0)
  else
    let dashFeatureName := replaceChar featureGate '_' '-'
    let title := "use of unstable lint `" ++ lintName ++ "`"
    let label := "this is behind `" ++ dashFeatureName ++ "`, which is not enabled"
    let help := "consider adding `cargo-features = [\"" ++ dashFeatureName ++
      "\"]` to the top of the manifest"
    match findLintSpan manifest manifestPath wsContents wsDocument wsPath lintName with
    | none => none
    | some (contents, path, span) =>
      some ([⟨⟨DiagLevel.error, true, title,
          [GroupElement.snippet ⟨contents, path, [⟨AnnKind.primary, span.key, some label⟩]⟩,
            GroupElement.message DiagLevel.help help]⟩ ::
          inheritedNoteGroups manifest manifestPath lintName, false⟩], 1)

/-- The "did you mean" search of `output_unknown_lints`: normalise hyphens to
underscores, then look for an exact name match among the known lints first and
the known groups second. -/
def matchingOf (lints : List Lint) (groups : List LintGroup) (lintName : String) :
    Option (String × String) :=
  let underscoreLintName := replaceChar lintName '-' '_'
  match lints.find? (fun l => l.name == underscoreLintName) with
  | some lint => some (lint.name, "lint")
  | none =>
    match groups.find? (fun g => g.name == underscoreLintName) with
    | some group => some (group.name, "group")
    | none => none

/-- The help text attached when the "did you mean" search succeeds. -/
def similarNameHelp (p : String × String) : String :=
  "there is a " ++ p.2 ++ " with a similar name: `" ++ p.1 ++ "`"

/-- The per-name loop of `output_unknown_lints`.  The `Option String` argument
is the `emitted_source` state: the first report of the batch additionally
carries the machine-readable note, later ones do not.  Each iteration counts
one error exactly when the resolved level `is_error()`, locates the span
(package scope first, then workspace; `none` embeds the panic), builds the
main group (snippet, then the optional first-report note, then the optional
help) plus the inherited note group, and emits with the level's force flag. -/
def unknownLintLoop (lints : List Lint) (groups : List LintGroup) (manifest : Manifest)
    (manifestPath wsContents : String) (wsDocument : DeTable) (wsPath : String)
    (diagLevel : DiagLevel) (lintLevel : LintLevel) (reason : LintLevelReason) :
    Option String → List String → Option (List Emitted × Nat)
  | _, [] => some ([], 0)
  | emittedSource, lintName :: rest =>
    let delta := if lintLevel.isError then 1 else 0
    let title := UNKNOWN_LINTS.desc ++ ": `" ++ lintName ++ "`"
    let help := (matchingOf lints groups lintName).map similarNameHelp
    match findLintSpan manifest manifestPath wsContents wsDocument wsPath lintName with
    | none => none
    | some (contents, path, span) =>
      let noteElems := if emittedSource.isNone then
          [GroupElement.message DiagLevel.note (UNKNOWN_LINTS.emittedSource lintLevel reason)]
        else []
      let newEmittedSource := if emittedSource.isNone then
          some (UNKNOWN_LINTS.emittedSource lintLevel reason)
        else emittedSource
      let helpElems := match help with
        | some h => [GroupElement.message DiagLevel.help h]
        | none => []
      let mainGroup : DiagGroup := ⟨diagLevel, true, title,
        GroupElement.snippet ⟨contents, path, [⟨AnnKind.primary, span.key, none⟩]⟩ ::
          (noteElems ++ helpElems)⟩
      match unknownLintLoop lints groups manifest manifestPath wsContents wsDocument wsPath
          diagLevel lintLevel reason newEmittedSource rest with
      | none => none
      | some (es, d) =>
        some (⟨mainGroup :: inheritedNoteGroups manifest manifestPath lintName,
          lintLevel.force⟩ :: es, delta + d)

/-- `output_unknown_lints` from `util/lints.rs`, parameterised by the lint and
group catalogs (the source reads the module constants `LINTS` and
`LINT_GROUPS`; the validation pass below instantiates exactly those).  The
reporting lint's own severity is resolved once through the standard resolver;
if it is Allow the whole batch is skipped. -/
def outputUnknownLints (lints : List Lint) (groups : List LintGroup)
    (unknownLints : List String) (manifest : Manifest) (manifestPath : String)
    (pkgLints : TomlToolLints) (wsContents : String) (wsDocument : DeTable)
    (wsPath : String) : Option (List Emitted × Nat) :=
  let lr := UNKNOWN_LINTS.level pkgLints manifest.edition manifest.unstableFeatures
  if lr.1 = LintLevel.allow then some ([], 0)
  else
    match lr.1.toDiagnosticLevel with
    | none => none
    | some diagLevel =>
      unknownLintLoop lints groups manifest manifestPath wsContents wsDocument wsPath
        diagLevel lr.1 lr.2 none unknownLints

/-- The classification step of the validation pass: a declared name is a known
lint (whose gate is returned), a known group (likewise), or unknown (`none`). -/
def classifyName (lintName : String) : Option (Option String) :=
  match LINTS.find? (fun l => l.name == lintName) with
  | some lint => some lint.feature_gate
  | none =>
    match LINT_GROUPS.find? (fun g => g.name == lintName) with
    | some group => some group.feature_gate
    | none => none

/-- A declared name that names a known lint or group whose feature gate is
present and not enabled — exactly the condition under which the pass reports
"use of unstable lint". -/
def gatedFailing (manifest : Manifest) (lintName : String) : Bool :=
  match classifyName lintName with
  | some (some gate) => !manifest.unstableFeatures gate
  | _ => false

/-- The key loop of `analyze_cargo_lints_table`: known gated names go through
`verify_feature_enabled`, unknown names are collected (in declaration order)
for batch reporting, other known names need nothing. -/
def analyzeLoop (manifest : Manifest) (manifestPath wsContents : String)
    (wsDocument : DeTable) (wsPath : String) :
    List String → Option (List Emitted × Nat × List String)
  | [] => some ([], 0, [])
  | lintName :: rest =>
    match classifyName lintName with
    | none =>
      match analyzeLoop manifest manifestPath wsContents wsDocument wsPath rest with
      | none => none
      | some (es, c, us) => some (es, c, lintName :: us)
    | some none => analyzeLoop manifest manifestPath wsContents wsDocument wsPath rest
    | some (some gate) =>
      match verifyFeatureEnabled lintName gate manifest manifestPath wsContents wsDocument
          wsPath with
      | none => none
      | some (es1, c1) =>
        match analyzeLoop manifest manifestPath wsContents wsDocument wsPath rest with
        | none => none
        | some (es, c, us) => some (es1 ++ es, c1 + c, us)

/-- `analyze_cargo_lints_table` from `util/lints.rs`: run the loop over the
declared names, hand the unknown batch to `output_unknown_lints`, then fail
with the summary message when the accumulated error count is non-zero.  The
result carries the emitted reports, the final error count, and the pass
verdict. -/
def analyzeCargoLintsTable (pkg : Manifest) (manifestPath : String)
    (pkgLints : TomlToolLints) (wsContents : String) (wsDocument : DeTable)
    (wsPath : String) : Option (List Emitted × Nat × Except String Unit) :=
  match analyzeLoop pkg manifestPath wsContents wsDocument wsPath (tomlLintsKeys pkgLints) with
  | none => none
  | some (es1, c1, unknowns) =>
    match outputUnknownLints LINTS LINT_GROUPS unknowns pkg manifestPath pkgLints wsContents
        wsDocument wsPath with
    | none => none
    | some (es2, c2) =>
      let errorCount := c1 + c2
      if errorCount > 0 then
        some (es1 ++ es2, errorCount,
          Except.error ("encountered " ++ toString errorCount ++ " errors(s) while verifying lints"))
      else
        some (es1 ++ es2, errorCount, Except.ok ())

end UtilLints

/-! Predicates used in the claim statements. -/

/-- The settings table does not declare `name` at Forbid (it may declare it at
any other level, or not at all). -/
def declaredNotForbid (pkgLints : TomlToolLints) (name : String) : Prop :=
  ∀ e, tomlLintsGet pkgLints name = some e → e.level ≠ TomlLintLevel.forbid

/-- The newer generation's feature gate is satisfied (or absent): the gated
short-circuit of `Lint::level` does not fire. -/
def gateOpen (lint : LintsMod.Lint) (unstableFeatures cliUnstable : String → Bool) : Prop :=
  LintsMod.gateBlocked lint.feature_gate unstableFeatures cliUnstable = false

/-! Concrete inputs used by the witnesses and counterexamples. -/

def c1Lint : LintsMod.Lint :=
  { name := "im_a_teapot"
    desc := ""
    primary_group := LintsMod.TEST_DUMMY_UNSTABLE
    edition_lint_opts := some (2, LintLevel.deny)
    feature_gate := some (LintsMod.Gated.feature ("test_dummy_unstable"))
    docs := none }

def c1PkgLints : TomlToolLints :=
  [("im_a_teapot", ⟨TomlLintLevel.forbid, 0⟩), ("test_dummy_unstable", ⟨TomlLintLevel.forbid, 0⟩)]

def c2Lint : LintsMod.Lint :=
  { name := "some_correctness_lint"
    desc := ""
    primary_group := LintsMod.CORRECTNESS
    edition_lint_opts := none
    feature_gate := none
    docs := none }

def c2PkgLintsA : TomlToolLints :=
  [("some_correctness_lint", ⟨TomlLintLevel.forbid, 0⟩)]

def c2PkgLintsB : TomlToolLints :=
  [("some_correctness_lint", ⟨TomlLintLevel.allow, 0⟩), ("correctness", ⟨TomlLintLevel.forbid, 0⟩)]

def c3Lint : LintsMod.Lint :=
  { name := "some_style_lint"
    desc := ""
    primary_group := LintsMod.STYLE
    edition_lint_opts := none
    feature_gate := none
    docs := none }

def c3PkgLints : TomlToolLints :=
  [("some_style_lint", ⟨TomlLintLevel.allow, 1⟩), ("style", ⟨TomlLintLevel.deny, 1⟩)]

def c4Doc : DeTable :=
  [("lints", ⟨1, 6⟩, ⟨1, 35⟩, DeValue.table
    [("cargo", ⟨7, 12⟩, ⟨1, 35⟩, DeValue.table
      [("im_a_teapot", ⟨15, 26⟩, ⟨29, 35⟩, DeValue.string ("warn"))])])]

def c4Manifest : UtilLints.Manifest :=
  ⟨"[lints.cargo]\nim_a_teapot = \"warn\"\n", c4Doc, 0, fun _ => false⟩

def c5Doc : DeTable :=
  [("target", ⟨0, 6⟩, ⟨0, 60⟩, DeValue.array
    [(⟨10, 21⟩, DeValue.string ("cfg(unix)")), (⟨23, 37⟩, DeValue.string ("cfg(windows)"))]),
   ("lints", ⟨40, 45⟩, ⟨40, 60⟩, DeValue.table
    [("cargo", ⟨47, 52⟩, ⟨47, 60⟩, DeValue.boolean true)])]

def c6Manifest : UtilLints.Manifest :=
  ⟨"", [], 0, fun _ => false⟩

def c6ModData : LintsMod.ManifestForData :=
  { contents := some ("")
    document := some []
    edition := 0
    unstableFeatures := fun _ => false }

def c7PkgLints : TomlToolLints :=
  [("unknown_lints", ⟨TomlLintLevel.allow, 0⟩)]

def c9WildLint : UtilLints.Lint :=
  { name := "wild_lints"
    desc := ""
    primary_group := UtilLints.SUSPICIOUS
    edition_lint_opts := none
    feature_gate := none
    docs := none }

def c9Doc : DeTable :=
  [("lints", ⟨1, 6⟩, ⟨1, 34⟩, DeValue.table
    [("cargo", ⟨7, 12⟩, ⟨1, 34⟩, DeValue.table
      [("widl_lints", ⟨15, 25⟩, ⟨28, 34⟩, DeValue.string ("warn"))])])]

def c9Manifest : UtilLints.Manifest :=
  ⟨"[lints.cargo]\nwidl_lints = \"warn\"\n", c9Doc, 0, fun _ => false⟩

def c9PkgLints : TomlToolLints :=
  [("widl_lints", ⟨TomlLintLevel.warn, 0⟩)]

def c9Report : Emitted :=
  ⟨[⟨DiagLevel.warning, true, "unknown lint: `widl_lints`",
    [GroupElement.snippet ⟨c9Manifest.contents, "Cargo.toml",
      [⟨AnnKind.primary, ⟨15, 25⟩, none⟩]⟩,
     GroupElement.message DiagLevel.note "`cargo::unknown_lints` is set to `warn` by default"]⟩],
  true⟩

def c10Doc : DeTable :=
  [("lints", ⟨1, 6⟩, ⟨1, 27⟩, DeValue.table
    [("cargo", ⟨7, 12⟩, ⟨1, 27⟩, DeValue.table
      [("foo", ⟨15, 18⟩, ⟨21, 27⟩, DeValue.string ("warn"))])])]

def c10Manifest : UtilLints.Manifest :=
  ⟨"[lints.cargo]\nfoo = \"warn\"\n", c10Doc, 0, fun _ => false⟩

def c10Report : Emitted :=
  ⟨[⟨DiagLevel.warning, true, "unknown lint: `foo`",
    [GroupElement.snippet ⟨c10Manifest.contents, "Cargo.toml",
      [⟨AnnKind.primary, ⟨15, 18⟩, none⟩]⟩,
     GroupElement.message DiagLevel.note "`cargo::unknown_lints` is set to `warn` by default"]⟩],
  true⟩

/-! Helper lemmas shared by several claim proofs. -/

theorem declaredNotForbid_of_get (t : TomlToolLints) (n : String) (e : TomlLint)
    (h : tomlLintsGet t n = some e) (hne : e.level ≠ TomlLintLevel.forbid) :
    declaredNotForbid t n := by
  intro x hx
  rw [h, Option.some.injEq] at hx
  subst hx
  exact hne

theorem declaredNotForbid_of_none (t : TomlToolLints) (n : String)
    (h : tomlLintsGet t n = none) : declaredNotForbid t n := by
  intro x hx
  rw [h] at hx
  simp at hx

theorem map_level_ne_forbid {t : TomlToolLints} {n : String} (h : declaredNotForbid t n) :
    (tomlLintsGet t n).map TomlLint.level ≠ some TomlLintLevel.forbid := by
  cases hg : tomlLintsGet t n with
  | none => simp
  | some e =>
    simp only [Option.map_some', ne_eq, Option.some.injEq]
    exact h e hg

theorem lintsMod_level_open (lint : LintsMod.Lint) (pkgLints : TomlToolLints) (edition : Nat)
    (uf cu : String → Bool) (hopen : gateOpen lint uf cu) :
    lint.level pkgLints edition uf cu =
      resolveDeclared (tomlLintsGet pkgLints lint.name)
        (tomlLintsGet pkgLints lint.primary_group.name)
        (editionLevelOf lint.edition_lint_opts edition)
        lint.primary_group.default_level edition := by
  unfold gateOpen at hopen
  simp [LintsMod.Lint.level, hopen]

theorem resolveDeclared_lint_forbid {le : TomlLint} {ge : Option TomlLint}
    {el : Option LintLevel} {dl : LintLevel} {ed : Nat}
    (h : le.level = TomlLintLevel.forbid) :
    resolveDeclared (some le) ge el dl ed = (LintLevel.forbid, LintLevelReason.package) := by
  simp [resolveDeclared, h]

theorem resolveDeclared_group_forbid {le : Option TomlLint} {ge : TomlLint}
    {el : Option LintLevel} {dl : LintLevel} {ed : Nat}
    (h1 : le.map TomlLint.level ≠ some TomlLintLevel.forbid)
    (h2 : ge.level = TomlLintLevel.forbid) :
    resolveDeclared le (some ge) el dl ed = (LintLevel.forbid, LintLevelReason.package) := by
  simp [resolveDeclared, h1, h2]

theorem resolveDeclared_edition_forbid {le ge : Option TomlLint} {dl : LintLevel} {ed : Nat}
    (h1 : le.map TomlLint.level ≠ some TomlLintLevel.forbid)
    (h2 : ge.map TomlLint.level ≠ some TomlLintLevel.forbid) :
    resolveDeclared le ge (some LintLevel.forbid) dl ed =
      (LintLevel.forbid, LintLevelReason.edition ed) := by
  simp [resolveDeclared, h1, h2]

theorem resolveDeclared_default_forbid {le ge : Option TomlLint} {el : Option LintLevel}
    {ed : Nat}
    (h1 : le.map TomlLint.level ≠ some TomlLintLevel.forbid)
    (h2 : ge.map TomlLint.level ≠ some TomlLintLevel.forbid)
    (h3 : el ≠ some LintLevel.forbid) :
    resolveDeclared le ge el LintLevel.forbid ed =
      (LintLevel.forbid, LintLevelReason.default) := by
  simp [resolveDeclared, h1, h2, h3]

/-- Claim C1: for every lint that declares a feature gate, when the gate is
unsatisfied (manifest-feature gate: the unstable feature is not enabled;
CLI-flag gate: the flag is enabled), `Lint::level` returns (Allow, Default)
regardless of any declared level for the lint or its primary group, of the
edition, of any edition override, and of the group default (all of which are
universally quantified here). -/
theorem c1_gated_lint_inert (lint : LintsMod.Lint) (g : LintsMod.Gated)
    (pkgLints : TomlToolLints) (edition : Nat) (unstableFeatures cliUnstable : String → Bool)
    (hg : lint.feature_gate = some g)
    (hunsat : match g with
      | LintsMod.Gated.feature f => unstableFeatures f = false
      | LintsMod.Gated.cli flag => cliUnstable flag = true) :
    lint.level pkgLints edition unstableFeatures cliUnstable =
      (LintLevel.allow, LintLevelReason.default) := by
  unfold LintsMod.Lint.level LintsMod.gateBlocked
  rw [hg]
  cases g with
  | cli flag =>
    simp only at hunsat
    simp [hunsat]
  | feature f =>
    simp only at hunsat
    simp [hunsat]

theorem c1_gated_lint_inert_witness :
    c1Lint.level c1PkgLints 5 (fun _ => false) (fun _ => false) =
      (LintLevel.allow, LintLevelReason.default) :=
  c1_gated_lint_inert c1Lint (LintsMod.Gated.feature ("test_dummy_unstable")) c1PkgLints 5
    (fun _ => false) (fun _ => false) rfl rfl

/-- Claim C2: with a satisfied (or absent) gate, Forbid wins over more
specific non-Forbid settings, in order: the lint itself declared Forbid gives
(Forbid, Package); else the primary group declared Forbid gives (Forbid,
Package) even when the lint itself is declared at any non-Forbid level such as
Allow; else an applicable edition override of Forbid gives (Forbid, Edition);
else a group default of Forbid gives (Forbid, Default). -/
theorem c2_forbid_dominance (lint : LintsMod.Lint) (pkgLints : TomlToolLints) (edition : Nat)
    (unstableFeatures cliUnstable : String → Bool)
    (hopen : gateOpen lint unstableFeatures cliUnstable) :
    (∀ e, tomlLintsGet pkgLints lint.name = some e → e.level = TomlLintLevel.forbid →
      lint.level pkgLints edition unstableFeatures cliUnstable =
        (LintLevel.forbid, LintLevelReason.package)) ∧
    (declaredNotForbid pkgLints lint.name →
      ∀ e, tomlLintsGet pkgLints lint.primary_group.name = some e →
        e.level = TomlLintLevel.forbid →
        lint.level pkgLints edition unstableFeatures cliUnstable =
          (LintLevel.forbid, LintLevelReason.package)) ∧
    (declaredNotForbid pkgLints lint.name →
      declaredNotForbid pkgLints lint.primary_group.name →
      ∀ eth, lint.edition_lint_opts = some (eth, LintLevel.forbid) → eth ≤ edition →
        lint.level pkgLints edition unstableFeatures cliUnstable =
          (LintLevel.forbid, LintLevelReason.edition edition)) ∧
    (declaredNotForbid pkgLints lint.name →
      declaredNotForbid pkgLints lint.primary_group.name →
      editionLevelOf lint.edition_lint_opts edition ≠ some LintLevel.forbid →
      lint.primary_group.default_level = LintLevel.forbid →
      lint.level pkgLints edition unstableFeatures cliUnstable =
        (LintLevel.forbid, LintLevelReason.default)) := by
  refine ⟨?_, ?_, ?_, ?_⟩
  · intro e he hf
    rw [lintsMod_level_open _ _ _ _ _ hopen, he]
    exact resolveDeclared_lint_forbid hf
  · intro hn e he hf
    rw [lintsMod_level_open _ _ _ _ _ hopen, he]
    exact resolveDeclared_group_forbid (map_level_ne_forbid hn) hf
  · intro hn1 hn2 eth hopts hle
    rw [lintsMod_level_open _ _ _ _ _ hopen]
    have hee : editionLevelOf lint.edition_lint_opts edition = some LintLevel.forbid := by
      simp [editionLevelOf, hopts, hle]
    rw [hee]
    exact resolveDeclared_edition_forbid (map_level_ne_forbid hn1) (map_level_ne_forbid hn2)
  · intro hn1 hn2 hne hdef
    rw [lintsMod_level_open _ _ _ _ _ hopen, hdef]
    exact resolveDeclared_default_forbid (map_level_ne_forbid hn1) (map_level_ne_forbid hn2) hne

theorem c2_forbid_dominance_witness :
    c2Lint.level c2PkgLintsA 0 (fun _ => false) (fun _ => false) =
      (LintLevel.forbid, LintLevelReason.package) ∧
    c2Lint.level c2PkgLintsB 0 (fun _ => false) (fun _ => false) =
      (LintLevel.forbid, LintLevelReason.package) := by
  constructor
  · exact (c2_forbid_dominance c2Lint c2PkgLintsA 0 (fun _ => false) (fun _ => false) rfl).1
      ⟨TomlLintLevel.forbid, 0⟩ rfl rfl
  · exact (c2_forbid_dominance c2Lint c2PkgLintsB 0 (fun _ => false) (fun _ => false) rfl).2.1
      (declaredNotForbid_of_get c2PkgLintsB ("some_correctness_lint") ⟨TomlLintLevel.allow, 0⟩
        rfl (by decide))
      ⟨TomlLintLevel.forbid, 0⟩ rfl rfl

/-- Claim C3: with a satisfied gate and no Forbid anywhere, declarations win
by priority (the lint wins ties and strictly greater priority, period — i.e.
the lint's level is used exactly when the group's priority does not exceed
it), a single declaration wins with reason Package, then an applicable edition
override with reason Edition, then the group default with reason Default. -/
theorem c3_declared_and_fallback (lint : LintsMod.Lint) (pkgLints : TomlToolLints)
    (edition : Nat) (unstableFeatures cliUnstable : String → Bool)
    (hopen : gateOpen lint unstableFeatures cliUnstable)
    (hn1 : declaredNotForbid pkgLints lint.name)
    (hn2 : declaredNotForbid pkgLints lint.primary_group.name)
    (hn3 : editionLevelOf lint.edition_lint_opts edition ≠ some LintLevel.forbid)
    (hn4 : lint.primary_group.default_level ≠ LintLevel.forbid) :
    (∀ l g, tomlLintsGet pkgLints lint.name = some l →
      tomlLintsGet pkgLints lint.primary_group.name = some g →
      lint.level pkgLints edition unstableFeatures cliUnstable =
        ((if g.priority ≤ l.priority then l.level.toLintLevel else g.level.toLintLevel),
          LintLevelReason.package)) ∧
    (∀ l, tomlLintsGet pkgLints lint.name = some l →
      tomlLintsGet pkgLints lint.primary_group.name = none →
      lint.level pkgLints edition unstableFeatures cliUnstable =
        (l.level.toLintLevel, LintLevelReason.package)) ∧
    (∀ g, tomlLintsGet pkgLints lint.name = none →
      tomlLintsGet pkgLints lint.primary_group.name = some g →
      lint.level pkgLints edition unstableFeatures cliUnstable =
        (g.level.toLintLevel, LintLevelReason.package)) ∧
    (∀ eth lv, tomlLintsGet pkgLints lint.name = none →
      tomlLintsGet pkgLints lint.primary_group.name = none →
      lint.edition_lint_opts = some (eth, lv) → eth ≤ edition →
      lint.level pkgLints edition unstableFeatures cliUnstable =
        (lv, LintLevelReason.edition edition)) ∧
    (tomlLintsGet pkgLints lint.name = none →
      tomlLintsGet pkgLints lint.primary_group.name = none →
      editionLevelOf lint.edition_lint_opts edition = none →
      lint.level pkgLints edition unstableFeatures cliUnstable =
        (lint.primary_group.default_level, LintLevelReason.default)) := by
  refine ⟨?_, ?_, ?_, ?_, ?_⟩
  · intro l g hl hg
    rw [lintsMod_level_open _ _ _ _ _ hopen, hl, hg]
    have e1 : l.level ≠ TomlLintLevel.forbid := hn1 l hl
    have e2 : g.level ≠ TomlLintLevel.forbid := hn2 g hg
    by_cases hp : l.priority < g.priority
    · simp [resolveDeclared, e1, e2, hn3, hn4, hp, not_le.mpr hp]
    · simp [resolveDeclared, e1, e2, hn3, hn4, hp, not_lt.mp hp]
  · intro l hl hg
    rw [lintsMod_level_open _ _ _ _ _ hopen, hl, hg]
    have e1 : l.level ≠ TomlLintLevel.forbid := hn1 l hl
    simp [resolveDeclared, e1, hn3, hn4]
  · intro g hl hg
    rw [lintsMod_level_open _ _ _ _ _ hopen, hl, hg]
    have e2 : g.level ≠ TomlLintLevel.forbid := hn2 g hg
    simp [resolveDeclared, e2, hn3, hn4]
  · intro eth lv hl hg hopts hle
    rw [lintsMod_level_open _ _ _ _ _ hopen]
    have hee : editionLevelOf lint.edition_lint_opts edition = some lv := by
      simp [editionLevelOf, hopts, hle]
    have hlv : lv ≠ LintLevel.forbid := by
      intro hx
      subst hx
      exact hn3 hee
    rw [hl, hg, hee]
    simp [resolveDeclared, hlv, hn4]
  · intro hl hg hee
    rw [lintsMod_level_open _ _ _ _ _ hopen]
    rw [hl, hg, hee]
    simp [resolveDeclared, hn4]

theorem c3_declared_and_fallback_witness :
    c3Lint.level c3PkgLints 7 (fun _ => false) (fun _ => false) =
      (LintLevel.allow, LintLevelReason.package) := by
  have h := (c3_declared_and_fallback c3Lint c3PkgLints 7 (fun _ => false) (fun _ => false)
    rfl
    (declaredNotForbid_of_get c3PkgLints ("some_style_lint") ⟨TomlLintLevel.allow, 1⟩ rfl
      (by decide))
    (declaredNotForbid_of_get c3PkgLints ("style") ⟨TomlLintLevel.deny, 1⟩ rfl (by decide))
    (by decide) (by decide)).1 ⟨TomlLintLevel.allow, 1⟩ ⟨TomlLintLevel.deny, 1⟩ rfl rfl
  simpa using h

/-- Claim C5: span lookup is total with an optional result.  (1) A missing
segment yields `none` (absence, not an error), at every level of the descent
by (2): descending a table step preserves the result.  (3) Reaching an array
with segments remaining consumes the next segment and returns the first array
element that is a string equal to it — the array key's span with the matched
element's span — and `none` when no element matches.  (4) On success the
returned span is the located key's byte range paired with the value's byte
range. -/
theorem c5_span_lookup :
    (∀ (t : DeTable) (k : String) (path : List String),
      findEntry t k = none → getKeyValueSpan t (k :: path) = none) ∧
    (∀ (t : DeTable) (k a : String) (ks vs : Srange) (t2 : List (String × Srange × Srange × DeValue))
        (next : String) (rest : List String),
      findEntry t k = some (a, ks, vs, DeValue.table t2) →
      getKeyValueSpan t (k :: next :: rest) = getKeyValueSpan t2 (next :: rest)) ∧
    (∀ (t : DeTable) (k a : String) (ks vs : Srange) (items : List (Srange × DeValue))
        (next : String) (rest : List String),
      findEntry t k = some (a, ks, vs, DeValue.array items) →
      getKeyValueSpan t (k :: next :: rest) =
        (items.find? (isStringMatch next)).map (fun it => ⟨ks, it.1⟩) ∧
      ((∀ it ∈ items, isStringMatch next it = false) →
        getKeyValueSpan t (k :: next :: rest) = none)) ∧
    (∀ (t : DeTable) (k a : String) (ks vs : Srange) (v : DeValue),
      findEntry t k = some (a, ks, vs, v) →
      getKeyValueSpan t [k] = some ⟨ks, vs⟩) := by
  refine ⟨?_, ?_, ?_, ?_⟩
  · intro t k path h
    cases path with
    | nil => simp [getKeyValueSpan, h]
    | cons n r =>
      simp only [getKeyValueSpan]
      split <;> simp_all
  · intro t k a ks vs t2 next rest h
    simp only [getKeyValueSpan]
    split <;> simp_all
  · intro t k a ks vs items next rest h
    have h1 : getKeyValueSpan t (k :: next :: rest) =
        (items.find? (isStringMatch next)).map (fun it => (⟨ks, it.1⟩ : TomlSpan)) := by
      simp only [getKeyValueSpan]
      split <;> simp_all
    refine ⟨h1, ?_⟩
    intro hall
    have h2 : items.find? (isStringMatch next) = none := by
      rw [List.find?_eq_none]
      intro x hx
      simp [hall x hx]
    rw [h1, h2]
    rfl
  · intro t k a ks vs v h
    simp [getKeyValueSpan, h]

theorem c5_span_lookup_witness :
    getKeyValueSpan c5Doc ["nope", "x"] = none ∧
    getKeyValueSpan c5Doc ["lints", "cargo"] =
      getKeyValueSpan [("cargo", ⟨47, 52⟩, ⟨47, 60⟩, DeValue.boolean true)] ["cargo"] ∧
    getKeyValueSpan c5Doc ["target", "cfg(windows)", "more"] = some ⟨⟨0, 6⟩, ⟨23, 37⟩⟩ ∧
    getKeyValueSpan c5Doc ["target"] = some ⟨⟨0, 6⟩, ⟨0, 60⟩⟩ := by
  refine ⟨?_, ?_, ?_, ?_⟩
  · exact c5_span_lookup.1 c5Doc ("nope") ["x"] rfl
  · exact c5_span_lookup.2.1 c5Doc ("lints") ("lints") ⟨40, 45⟩ ⟨40, 60⟩
      [("cargo", ⟨47, 52⟩, ⟨47, 60⟩, DeValue.boolean true)] ("cargo") [] rfl
  · exact ((c5_span_lookup.2.2.1 c5Doc ("target") ("target") ⟨0, 6⟩ ⟨0, 60⟩
      [(⟨10, 21⟩, DeValue.string ("cfg(unix)")), (⟨23, 37⟩, DeValue.string ("cfg(windows)"))]
      ("cfg(windows)") ["more"] rfl).1).trans rfl
  · exact c5_span_lookup.2.2.2 c5Doc ("target") ("target") ⟨0, 6⟩ ⟨0, 60⟩
      (DeValue.array [(⟨10, 21⟩, DeValue.string ("cfg(unix)")),
        (⟨23, 37⟩, DeValue.string ("cfg(windows)"))]) rfl

/-- Claim C7: in unknown-lint reporting the severity of the synthetic
`unknown_lints` lint (which has no feature gate and whose primary group is
Suspicious) is resolved through the standard resolver, and when it resolves to
Allow the whole batch is skipped: no report is emitted and the error count is
unchanged, for every list of unknown names. -/
theorem c7_unknown_lints_allow_skips (lints : List UtilLints.Lint)
    (groups : List UtilLints.LintGroup) (unknownLints : List String)
    (manifest : UtilLints.Manifest) (manifestPath : String) (pkgLints : TomlToolLints)
    (wsContents : String) (wsDocument : DeTable) (wsPath : String)
    (hallow : (UtilLints.UNKNOWN_LINTS.level pkgLints manifest.edition
      manifest.unstableFeatures).1 = LintLevel.allow) :
    UtilLints.outputUnknownLints lints groups unknownLints manifest manifestPath pkgLints
      wsContents wsDocument wsPath = some ([], 0) ∧
    UtilLints.UNKNOWN_LINTS.feature_gate = none ∧
    UtilLints.UNKNOWN_LINTS.primary_group = UtilLints.SUSPICIOUS := by
  refine ⟨?_, rfl, rfl⟩
  unfold UtilLints.outputUnknownLints
  simp [hallow]

theorem c7_unknown_lints_allow_skips_witness :
    UtilLints.outputUnknownLints UtilLints.LINTS UtilLints.LINT_GROUPS ["foo"] c6Manifest
      ("Cargo.toml") c7PkgLints ("") [] ("ws/Cargo.toml") = some ([], 0) ∧
    UtilLints.UNKNOWN_LINTS.feature_gate = none ∧
    UtilLints.UNKNOWN_LINTS.primary_group = UtilLints.SUSPICIOUS :=
  c7_unknown_lints_allow_skips UtilLints.LINTS UtilLints.LINT_GROUPS ["foo"] c6Manifest
    ("Cargo.toml") c7PkgLints ("") [] ("ws/Cargo.toml") rfl

/-- Claim C8: when the validation pass completes, it fails with the summary
message carrying the accumulated error count exactly when that count is
non-zero, and succeeds when it is zero. -/
theorem c8_aggregate_failure (pkg : UtilLints.Manifest) (manifestPath : String)
    (pkgLints : TomlToolLints) (wsContents : String) (wsDocument : DeTable) (wsPath : String)
    (es : List Emitted) (c : Nat) (r : Except String Unit)
    (h : UtilLints.analyzeCargoLintsTable pkg manifestPath pkgLints wsContents wsDocument
      wsPath = some (es, c, r)) :
    (c > 0 → r = Except.error ("encountered " ++ toString c ++ " errors(s) while verifying lints")) ∧
    (c = 0 → r = Except.ok ()) := by
  unfold UtilLints.analyzeCargoLintsTable at h
  split at h
  · simp at h
  · rename_i res1 es1 c1 us1 heq1
    split at h
    · simp at h
    · rename_i res2 es2 d2 heq2
      by_cases hgt : c1 + d2 > 0
      · simp only [hgt, if_true, Option.some.injEq, Prod.mk.injEq] at h
        obtain ⟨h1, h2, h3⟩ := h
        subst h2
        subst h3
        refine ⟨fun _ => rfl, fun hz => absurd hz (by omega)⟩
      · simp only [hgt, if_false, Option.some.injEq, Prod.mk.injEq] at h
        obtain ⟨h1, h2, h3⟩ := h
        subst h2
        subst h3
        refine ⟨fun hp => absurd hp hgt, fun _ => rfl⟩

theorem c8_aggregate_failure_witness :
    UtilLints.analyzeCargoLintsTable c6Manifest ("Cargo.toml") [] ("") [] ("ws/Cargo.toml") =
      some ([], 0, Except.ok ()) ∧
    ((0 : Nat) = 0 → (Except.ok () : Except String Unit) = Except.ok ()) := by
  have hbase : UtilLints.analyzeCargoLintsTable c6Manifest ("Cargo.toml") [] ("") []
      ("ws/Cargo.toml") = some ([], 0, Except.ok ()) := rfl
  exact ⟨hbase, (c8_aggregate_failure _ _ _ _ _ _ _ _ _ hbase).2⟩

theorem unknownLintLoop_shape (lints : List UtilLints.Lint) (groups : List UtilLints.LintGroup)
    (manifest : UtilLints.Manifest) (manifestPath wsContents : String) (wsDocument : DeTable)
    (wsPath : String) (diagLevel : DiagLevel) (lintLevel : LintLevel)
    (reason : LintLevelReason) :
    ∀ (names : List String) (st : Option String) (es : List Emitted) (d : Nat),
      UtilLints.unknownLintLoop lints groups manifest manifestPath wsContents wsDocument wsPath
        diagLevel lintLevel reason st names = some (es, d) →
      es.length = names.length ∧ d = (if lintLevel.isError then names.length else 0) := by
  intro names
  induction names with
  | nil =>
    intro st es d h
    simp only [UtilLints.unknownLintLoop, Option.some.injEq, Prod.mk.injEq] at h
    obtain ⟨h1, h2⟩ := h
    subst h1
    subst h2
    simp
  | cons n rest ih =>
    intro st es d h
    simp only [UtilLints.unknownLintLoop] at h
    split at h
    · simp at h
    · rename_i triple contents path span heqf
      split at h
      · simp at h
      · rename_i res es2 d2 heqr
        simp only [Option.some.injEq, Prod.mk.injEq] at h
        obtain ⟨h1, h2⟩ := h
        subst h1
        subst h2
        obtain ⟨hlen, hd⟩ := ih _ _ _ heqr
        constructor
        · simp [hlen]
        · cases he : lintLevel.isError <;> simp [he] at hd ⊢ <;> omega

/-- Claim C10: for every completed unknown-lint batch, one report is emitted
per unknown name whenever the resolved level is not Allow, and the error count
grows by one per unknown name exactly when the resolved level `is_error()`
(Deny or Forbid) — in particular a Warn-level batch emits its reports but
leaves the error count unchanged. -/
theorem c10_unknown_error_counting (lints : List UtilLints.Lint)
    (groups : List UtilLints.LintGroup) (unknownLints : List String)
    (manifest : UtilLints.Manifest) (manifestPath : String) (pkgLints : TomlToolLints)
    (wsContents : String) (wsDocument : DeTable) (wsPath : String) (es : List Emitted)
    (d : Nat)
    (h : UtilLints.outputUnknownLints lints groups unknownLints manifest manifestPath pkgLints
      wsContents wsDocument wsPath = some (es, d)) :
    es.length = (if (UtilLints.UNKNOWN_LINTS.level pkgLints manifest.edition
        manifest.unstableFeatures).1 = LintLevel.allow then 0 else unknownLints.length) ∧
    d = (if ((UtilLints.UNKNOWN_LINTS.level pkgLints manifest.edition
        manifest.unstableFeatures).1).isError then unknownLints.length else 0) := by
  rcases hv : UtilLints.UNKNOWN_LINTS.level pkgLints manifest.edition manifest.unstableFeatures
    with ⟨lvl, rsn⟩
  unfold UtilLints.outputUnknownLints at h
  rw [hv] at h
  cases lvl with
  | allow =>
    simp at h
    obtain ⟨h1, h2⟩ := h
    subst h1
    subst h2
    simp [LintLevel.isError]
  | warn =>
    simp [LintLevel.toDiagnosticLevel] at h
    obtain ⟨hlen, hd⟩ := unknownLintLoop_shape _ _ _ _ _ _ _ _ _ _ _ _ _ _ h
    simp [hlen, hd, LintLevel.isError]
  | deny =>
    simp [LintLevel.toDiagnosticLevel] at h
    obtain ⟨hlen, hd⟩ := unknownLintLoop_shape _ _ _ _ _ _ _ _ _ _ _ _ _ _ h
    simp [hlen, hd, LintLevel.isError]
  | forbid =>
    simp [LintLevel.toDiagnosticLevel] at h
    obtain ⟨hlen, hd⟩ := unknownLintLoop_shape _ _ _ _ _ _ _ _ _ _ _ _ _ _ h
    simp [hlen, hd, LintLevel.isError]

theorem c10_unknown_error_counting_witness :
    (([c10Report] : List Emitted).length =
      (if (UtilLints.UNKNOWN_LINTS.level [] c10Manifest.edition
          c10Manifest.unstableFeatures).1 = LintLevel.allow then 0
        else (["foo"] : List String).length)) ∧
    ((0 : Nat) = (if ((UtilLints.UNKNOWN_LINTS.level [] c10Manifest.edition
        c10Manifest.unstableFeatures).1).isError then (["foo"] : List String).length else 0)) := by
  have hspan : getKeyValueSpan c10Doc ["lints", "cargo", "foo"] =
      some ⟨⟨15, 18⟩, ⟨21, 27⟩⟩ := by
    simp [getKeyValueSpan, findEntry, c10Doc, List.find?]
  have hws : getKeyValueSpan c10Doc ["lints", "workspace"] = none := by
    simp [getKeyValueSpan, findEntry, c10Doc, List.find?]
  have hfind : UtilLints.findLintSpan c10Manifest ("Cargo.toml") ("") [] ("ws/Cargo.toml")
      ("foo") = some (c10Manifest.contents, "Cargo.toml", ⟨⟨15, 18⟩, ⟨21, 27⟩⟩) := by
    rw [UtilLints.findLintSpan.eq_def]
    rw [show c10Manifest.document = c10Doc from rfl]
    rw [hspan]
  have hinherit : UtilLints.inheritedNoteGroups c10Manifest ("Cargo.toml") ("foo") = [] := by
    rw [UtilLints.inheritedNoteGroups.eq_def]
    rw [show c10Manifest.document = c10Doc from rfl]
    rw [hws]
  have hloop : UtilLints.unknownLintLoop UtilLints.LINTS UtilLints.LINT_GROUPS c10Manifest
      ("Cargo.toml") ("") [] ("ws/Cargo.toml") DiagLevel.warning LintLevel.warn
      LintLevelReason.default none ["foo"] = some ([c10Report], 0) := by
    rw [UtilLints.unknownLintLoop.eq_2, hfind, hinherit]
    rfl
  have hne : ¬ (LintLevel.warn = LintLevel.allow) := by decide
  have hlev : UtilLints.UNKNOWN_LINTS.level [] c10Manifest.edition c10Manifest.unstableFeatures =
      (LintLevel.warn, LintLevelReason.default) := rfl
  have htodiag : LintLevel.warn.toDiagnosticLevel = some DiagLevel.warning := rfl
  have hev : UtilLints.outputUnknownLints UtilLints.LINTS UtilLints.LINT_GROUPS ["foo"]
      c10Manifest ("Cargo.toml") [] ("") [] ("ws/Cargo.toml") = some ([c10Report], 0) := by
    conv_lhs => rw [UtilLints.outputUnknownLints.eq_def]
    conv_lhs => rw [hlev]
    dsimp only
    conv_lhs => rw [if_neg hne]
    conv_lhs => rw [htodiag]
    dsimp only
    exact hloop
  exact c10_unknown_error_counting UtilLints.LINTS UtilLints.LINT_GROUPS ["foo"] c10Manifest
    ("Cargo.toml") [] ("") [] ("ws/Cargo.toml") [c10Report] 0 hev

theorem verifyFeatureEnabled_shape (lintName featureGate : String)
    (manifest : UtilLints.Manifest) (manifestPath wsContents : String) (wsDocument : DeTable)
    (wsPath : String) (es : List Emitted) (c : Nat)
    (h : UtilLints.verifyFeatureEnabled lintName featureGate manifest manifestPath wsContents
      wsDocument wsPath = some (es, c)) :
    es.length = c ∧ c = (if manifest.unstableFeatures featureGate then 0 else 1) := by
  rw [UtilLints.verifyFeatureEnabled.eq_def] at h
  cases hen : manifest.unstableFeatures featureGate
  · rw [hen] at h
    simp only [Bool.false_eq_true, if_false] at h
    split at h
    · simp at h
    · rename_i contents path span heqf
      simp only [Option.some.injEq, Prod.mk.injEq] at h
      obtain ⟨h1, h2⟩ := h
      subst h1
      subst h2
      simp [hen]
  · rw [hen] at h
    simp at h
    obtain ⟨h1, h2⟩ := h
    subst h1
    subst h2
    simp [hen]

/-- Claim C4: during the validation pass, a declared name that is a known lint
or known group with a failing feature gate and a locatable span produces
exactly one "use of unstable lint" error report — anchored at the declared
key's span, labelled with the gate, carrying the `cargo-features` help — and
contributes exactly one to the error count; across a completed pass the loop's
error count equals the number of gated-failing declared names and also the
number of reports it emitted (so each such name yields exactly one). -/
theorem c4_gated_lint_reporting :
    (∀ (lintName featureGate : String) (manifest : UtilLints.Manifest)
        (manifestPath wsContents : String) (wsDocument : DeTable) (wsPath : String)
        (contents path : String) (span : TomlSpan),
      manifest.unstableFeatures featureGate = false →
      UtilLints.findLintSpan manifest manifestPath wsContents wsDocument wsPath lintName =
        some (contents, path, span) →
      UtilLints.verifyFeatureEnabled lintName featureGate manifest manifestPath wsContents
        wsDocument wsPath =
        some ([⟨⟨DiagLevel.error, true, "use of unstable lint `" ++ lintName ++ "`",
          [GroupElement.snippet ⟨contents, path, [⟨AnnKind.primary, span.key,
            some ("this is behind `" ++ replaceChar featureGate '_' '-' ++
              "`, which is not enabled")⟩]⟩,
           GroupElement.message DiagLevel.help ("consider adding `cargo-features = [\"" ++
             replaceChar featureGate '_' '-' ++ "\"]` to the top of the manifest")]⟩ ::
          UtilLints.inheritedNoteGroups manifest manifestPath lintName, false⟩], 1)) ∧
    (∀ (manifest : UtilLints.Manifest) (manifestPath wsContents : String)
        (wsDocument : DeTable) (wsPath : String) (names : List String)
        (es : List Emitted) (c : Nat) (us : List String),
      UtilLints.analyzeLoop manifest manifestPath wsContents wsDocument wsPath names =
        some (es, c, us) →
      es.length = c ∧ c = (names.filter (UtilLints.gatedFailing manifest)).length) := by
  constructor
  · intro lintName featureGate manifest manifestPath wsContents wsDocument wsPath contents
      path span hen hf
    rw [UtilLints.verifyFeatureEnabled.eq_def, hen]
    simp only [Bool.false_eq_true, if_false, hf]
  · intro manifest manifestPath wsContents wsDocument wsPath names
    induction names with
    | nil =>
      intro es c us h
      simp only [UtilLints.analyzeLoop, Option.some.injEq, Prod.mk.injEq] at h
      obtain ⟨h1, h2, h3⟩ := h
      subst h1
      subst h2
      simp
    | cons n rest ih =>
      intro es c us h
      simp only [UtilLints.analyzeLoop] at h
      cases hc : UtilLints.classifyName n with
      | none =>
        rw [hc] at h
        dsimp only at h
        split at h
        · simp at h
        · rename_i res es2 c2 us2 heq
          simp only [Option.some.injEq, Prod.mk.injEq] at h
          obtain ⟨h1, h2, h3⟩ := h
          subst h1
          subst h2
          obtain ⟨hl, hcnt⟩ := ih _ _ _ heq
          refine ⟨hl, ?_⟩
          have hg : UtilLints.gatedFailing manifest n = false := by
            simp [UtilLints.gatedFailing, hc]
          simp [List.filter, hg, hcnt]
      | some g0 =>
        cases g0 with
        | none =>
          rw [hc] at h
          dsimp only at h
          obtain ⟨hl, hcnt⟩ := ih _ _ _ h
          refine ⟨hl, ?_⟩
          have hg : UtilLints.gatedFailing manifest n = false := by
            simp [UtilLints.gatedFailing, hc]
          simp [List.filter, hg, hcnt]
        | some gate =>
          rw [hc] at h
          dsimp only at h
          split at h
          · simp at h
          · rename_i vres es1 c1 heqv
            split at h
            · simp at h
            · rename_i rres es2 c2 us2 heqr
              simp only [Option.some.injEq, Prod.mk.injEq] at h
              obtain ⟨h1, h2, h3⟩ := h
              subst h1
              subst h2
              obtain ⟨hl1, hc1⟩ := verifyFeatureEnabled_shape _ _ _ _ _ _ _ _ _ heqv
              obtain ⟨hl2, hc2⟩ := ih _ _ _ heqr
              have hg : UtilLints.gatedFailing manifest n = !(manifest.unstableFeatures gate) := by
                simp [UtilLints.gatedFailing, hc]
              constructor
              · simp [hl1, hl2]
              · cases he : manifest.unstableFeatures gate
                · rw [he] at hc1
                  simp only [Bool.false_eq_true, if_false] at hc1
                  simp [List.filter, hg, he, hc1, hc2]
                  omega
                · rw [he] at hc1
                  simp only [if_true] at hc1
                  simp [List.filter, hg, he, hc1, hc2]

theorem c4_gated_lint_reporting_witness :
    UtilLints.verifyFeatureEnabled ("im_a_teapot") ("test_dummy_unstable") c4Manifest
      ("Cargo.toml") ("") [] ("ws/Cargo.toml") =
      some ([⟨⟨DiagLevel.error, true, "use of unstable lint `" ++ "im_a_teapot" ++ "`",
        [GroupElement.snippet ⟨c4Manifest.contents, "Cargo.toml", [⟨AnnKind.primary,
          (⟨⟨15, 26⟩, ⟨29, 35⟩⟩ : TomlSpan).key,
          some ("this is behind `" ++ replaceChar ("test_dummy_unstable") '_' '-' ++
            "`, which is not enabled")⟩]⟩,
         GroupElement.message DiagLevel.help ("consider adding `cargo-features = [\"" ++
           replaceChar ("test_dummy_unstable") '_' '-' ++ "\"]` to the top of the manifest")]⟩ ::
        UtilLints.inheritedNoteGroups c4Manifest ("Cargo.toml") ("im_a_teapot"), false⟩], 1) ∧
    (([] : List Emitted).length = 0 ∧
      0 = ((["nonexistent_zzz"] : List String).filter
        (UtilLints.gatedFailing c4Manifest)).length) := by
  have hspan4 : getKeyValueSpan c4Doc ["lints", "cargo", "im_a_teapot"] =
      some ⟨⟨15, 26⟩, ⟨29, 35⟩⟩ := by
    simp [getKeyValueSpan, findEntry, c4Doc, List.find?]
  have hfind4 : UtilLints.findLintSpan c4Manifest ("Cargo.toml") ("") [] ("ws/Cargo.toml")
      ("im_a_teapot") = some (c4Manifest.contents, "Cargo.toml", ⟨⟨15, 26⟩, ⟨29, 35⟩⟩) := by
    rw [UtilLints.findLintSpan.eq_def]
    rw [show c4Manifest.document = c4Doc from rfl]
    rw [hspan4]
  constructor
  · exact c4_gated_lint_reporting.1 ("im_a_teapot") ("test_dummy_unstable") c4Manifest
      ("Cargo.toml") ("") [] ("ws/Cargo.toml") c4Manifest.contents ("Cargo.toml")
      ⟨⟨15, 26⟩, ⟨29, 35⟩⟩ rfl hfind4
  · exact c4_gated_lint_reporting.2 c4Manifest ("Cargo.toml") ("") [] ("ws/Cargo.toml")
      ["nonexistent_zzz"] [] 0 ["nonexistent_zzz"] rfl

/-- Claim C6 counterexample: in the older generation the span search does try
the package scope first and then the workspace scope, but when the name is
found in neither document `verify_feature_enabled` panics — embedded as a
`none` result — instead of skipping emission with the counters unchanged
(which would be the `some ([], 0)` result).  Concrete input: the gated lint
`im_a_teapot` declared while both documents are empty. -/
theorem c6_missing_span_counterexample :
    UtilLints.verifyFeatureEnabled ("im_a_teapot") ("test_dummy_unstable") c6Manifest
      ("Cargo.toml") ("") [] ("ws/Cargo.toml") = none ∧
    (none : Option (List Emitted × Nat)) ≠ some ([], 0) := by
  have h1 : getKeyValueSpan ([] : DeTable) ["lints", "cargo", "im_a_teapot"] = none := by
    simp [getKeyValueSpan, findEntry]
  have h2 : getKeyValueSpan ([] : DeTable)
      ["workspace", "lints", "cargo", "im_a_teapot"] = none := by
    simp [getKeyValueSpan, findEntry]
  have hf : UtilLints.findLintSpan c6Manifest ("Cargo.toml") ("") [] ("ws/Cargo.toml")
      ("im_a_teapot") = none := by
    rw [UtilLints.findLintSpan.eq_def]
    rw [show c6Manifest.document = ([] : DeTable) from rfl]
    rw [h1]
    dsimp only
    rw [h2]
  constructor
  · rw [UtilLints.verifyFeatureEnabled.eq_def]
    rw [show c6Manifest.unstableFeatures ("test_dummy_unstable") = false from rfl]
    simp only [Bool.false_eq_true, if_false, hf]
  · simp

/-- Claim C6 (amended): when reporting a gated-lint violation, the newer
generation (`lints/mod.rs`) looks the span up at a single scope-determined key
path and, when document and contents are present but the span is not found,
skips emission entirely, leaving the error count and the report sink unchanged
and never panicking; the older generation (`util/lints.rs`) tries the package
scope first and then the workspace scope, and when the span is found in
neither it panics (aborts the pass) instead of skipping. -/
theorem c6_amended_missing_span_behavior :
    (∀ (lintName featureGate : String) (manifest : LintsMod.ManifestFor)
        (manifestPath : String) (doc : DeTable) (contents : String),
      manifest.document = some doc →
      manifest.contents = some contents →
      getKeyValueSpan doc (LintsMod.keyPathFor manifest lintName) = none →
      LintsMod.reportFeatureNotEnabled lintName featureGate manifest manifestPath = ([], 0)) ∧
    (∀ (lintName featureGate : String) (manifest : UtilLints.Manifest)
        (manifestPath wsContents : String) (wsDocument : DeTable) (wsPath : String),
      manifest.unstableFeatures featureGate = false →
      UtilLints.findLintSpan manifest manifestPath wsContents wsDocument wsPath lintName =
        none →
      UtilLints.verifyFeatureEnabled lintName featureGate manifest manifestPath wsContents
        wsDocument wsPath = none) := by
  constructor
  · intro lintName featureGate manifest manifestPath doc contents hdoc hcontents hnone
    rw [LintsMod.reportFeatureNotEnabled.eq_def, hdoc, hcontents]
    dsimp only
    rw [hnone]
  · intro lintName featureGate manifest manifestPath wsContents wsDocument wsPath hen hnone
    rw [UtilLints.verifyFeatureEnabled.eq_def, hen]
    simp only [Bool.false_eq_true, if_false, hnone]

theorem c6_amended_missing_span_behavior_witness :
    LintsMod.reportFeatureNotEnabled ("im_a_teapot") ("test_dummy_unstable")
      (LintsMod.ManifestFor.package c6ModData) ("Cargo.toml") = ([], 0) ∧
    UtilLints.verifyFeatureEnabled ("im_a_teapot") ("test_dummy_unstable") c6Manifest
      ("Cargo.toml") ("") [] ("ws/Cargo.toml") = none := by
  have h1 : getKeyValueSpan ([] : DeTable) ["lints", "cargo", "im_a_teapot"] = none := by
    simp [getKeyValueSpan, findEntry]
  have h2 : getKeyValueSpan ([] : DeTable)
      ["workspace", "lints", "cargo", "im_a_teapot"] = none := by
    simp [getKeyValueSpan, findEntry]
  have hnone1 : getKeyValueSpan ([] : DeTable)
      (LintsMod.keyPathFor (LintsMod.ManifestFor.package c6ModData) ("im_a_teapot")) = none := by
    rw [show LintsMod.keyPathFor (LintsMod.ManifestFor.package c6ModData) ("im_a_teapot") =
      ["lints", "cargo", "im_a_teapot"] from rfl]
    exact h1
  have hf : UtilLints.findLintSpan c6Manifest ("Cargo.toml") ("") [] ("ws/Cargo.toml")
      ("im_a_teapot") = none := by
    rw [UtilLints.findLintSpan.eq_def]
    rw [show c6Manifest.document = ([] : DeTable) from rfl]
    rw [h1]
    dsimp only
    rw [h2]
  constructor
  · exact c6_amended_missing_span_behavior.1 ("im_a_teapot") ("test_dummy_unstable")
      (LintsMod.ManifestFor.package c6ModData) ("Cargo.toml") [] ("") rfl rfl hnone1
  · exact c6_amended_missing_span_behavior.2 ("im_a_teapot") ("test_dummy_unstable")
      c6Manifest ("Cargo.toml") ("") [] ("ws/Cargo.toml") rfl hf

/-- Claim C9 counterexample: the "did you mean" search normalises hyphens to
underscores and then requires an exact name match, so the transposed name
`widl_lints` does not match a catalog lint named `wild_lints`: with declared
settings containing `widl_lints = "warn"` and a catalog containing
`wild_lints`, exactly one report is emitted and it carries no help text at all
— the claim requires its help text to name `wild_lints`. -/
theorem c9_transposed_no_suggestion_counterexample :
    (UtilLints.outputUnknownLints [c9WildLint] [] ["widl_lints"] c9Manifest ("Cargo.toml")
      c9PkgLints ("") [] ("ws/Cargo.toml")).map
        (fun r => (r.1.length, r.1.map emittedHelps, r.2)) = some (1, [[]], 0) := by
  have hspan9 : getKeyValueSpan c9Doc ["lints", "cargo", "widl_lints"] =
      some ⟨⟨15, 25⟩, ⟨28, 34⟩⟩ := by
    simp [getKeyValueSpan, findEntry, c9Doc, List.find?]
  have hws9 : getKeyValueSpan c9Doc ["lints", "workspace"] = none := by
    simp [getKeyValueSpan, findEntry, c9Doc, List.find?]
  have hfind9 : UtilLints.findLintSpan c9Manifest ("Cargo.toml") ("") [] ("ws/Cargo.toml")
      ("widl_lints") = some (c9Manifest.contents, "Cargo.toml", ⟨⟨15, 25⟩, ⟨28, 34⟩⟩) := by
    rw [UtilLints.findLintSpan.eq_def]
    rw [show c9Manifest.document = c9Doc from rfl]
    rw [hspan9]
  have hinherit9 : UtilLints.inheritedNoteGroups c9Manifest ("Cargo.toml")
      ("widl_lints") = [] := by
    rw [UtilLints.inheritedNoteGroups.eq_def]
    rw [show c9Manifest.document = c9Doc from rfl]
    rw [hws9]
  have hloop9 : UtilLints.unknownLintLoop [c9WildLint] [] c9Manifest ("Cargo.toml") ("") []
      ("ws/Cargo.toml") DiagLevel.warning LintLevel.warn LintLevelReason.default none
      ["widl_lints"] = some ([c9Report], 0) := by
    rw [UtilLints.unknownLintLoop.eq_2, hfind9, hinherit9]
    rfl
  have hne : ¬ (LintLevel.warn = LintLevel.allow) := by decide
  have hlev9 : UtilLints.UNKNOWN_LINTS.level c9PkgLints c9Manifest.edition
      c9Manifest.unstableFeatures = (LintLevel.warn, LintLevelReason.default) := rfl
  have htodiag : LintLevel.warn.toDiagnosticLevel = some DiagLevel.warning := rfl
  have hev9 : UtilLints.outputUnknownLints [c9WildLint] [] ["widl_lints"] c9Manifest
      ("Cargo.toml") c9PkgLints ("") [] ("ws/Cargo.toml") = some ([c9Report], 0) := by
    conv_lhs => rw [UtilLints.outputUnknownLints.eq_def]
    conv_lhs => rw [hlev9]
    dsimp only
    conv_lhs => rw [if_neg hne]
    conv_lhs => rw [htodiag]
    dsimp only
    exact hloop9
  rw [hev9]
  rfl

/-- Claim C9 (amended): the "did you mean" suggestion replaces hyphens by
underscores in the declared name and then looks for an exact name match among
the known lints first and the known groups second, attaching a help note
naming the match and whether it is a lint or a group, and attaching no help
when there is no exact match; hyphen normalisation means a declared
`wild-lints` matches a catalog lint `wild_lints`, while the transposed
`widl_lints` matches nothing and gets no suggestion. -/
theorem c9_amended_exact_match_suggestion :
    (∀ (lints : List UtilLints.Lint) (groups : List UtilLints.LintGroup) (lintName : String)
        (l : UtilLints.Lint),
      lints.find? (fun x => x.name == replaceChar lintName '-' '_') = some l →
      UtilLints.matchingOf lints groups lintName = some (l.name, "lint")) ∧
    (∀ (lints : List UtilLints.Lint) (groups : List UtilLints.LintGroup) (lintName : String)
        (g : UtilLints.LintGroup),
      lints.find? (fun x => x.name == replaceChar lintName '-' '_') = none →
      groups.find? (fun x => x.name == replaceChar lintName '-' '_') = some g →
      UtilLints.matchingOf lints groups lintName = some (g.name, "group")) ∧
    (∀ (lints : List UtilLints.Lint) (groups : List UtilLints.LintGroup) (lintName : String),
      lints.find? (fun x => x.name == replaceChar lintName '-' '_') = none →
      groups.find? (fun x => x.name == replaceChar lintName '-' '_') = none →
      UtilLints.matchingOf lints groups lintName = none) ∧
    (∀ (lints : List UtilLints.Lint) (groups : List UtilLints.LintGroup)
        (manifest : UtilLints.Manifest) (manifestPath wsContents : String)
        (wsDocument : DeTable) (wsPath : String) (diagLevel : DiagLevel)
        (lintLevel : LintLevel) (reason : LintLevelReason) (st : Option String)
        (lintName contents path : String) (span : TomlSpan),
      UtilLints.findLintSpan manifest manifestPath wsContents wsDocument wsPath lintName =
        some (contents, path, span) →
      UtilLints.unknownLintLoop lints groups manifest manifestPath wsContents wsDocument
        wsPath diagLevel lintLevel reason st [lintName] =
        some ([⟨⟨diagLevel, true, UtilLints.UNKNOWN_LINTS.desc ++ ": `" ++ lintName ++ "`",
          GroupElement.snippet ⟨contents, path, [⟨AnnKind.primary, span.key, none⟩]⟩ ::
            ((if st.isNone then [GroupElement.message DiagLevel.note
                (UtilLints.UNKNOWN_LINTS.emittedSource lintLevel reason)] else []) ++
             (match (UtilLints.matchingOf lints groups lintName).map
                UtilLints.similarNameHelp with
              | some h => [GroupElement.message DiagLevel.help h]
              | none => []))⟩ ::
          UtilLints.inheritedNoteGroups manifest manifestPath lintName, lintLevel.force⟩],
        if lintLevel.isError then 1 else 0)) ∧
    UtilLints.matchingOf [c9WildLint] [] ("wild-lints") = some ("wild_lints", "lint") := by
  refine ⟨?_, ?_, ?_, ?_, rfl⟩
  · intro lints groups lintName l h
    rw [UtilLints.matchingOf.eq_def]
    dsimp only
    rw [h]
  · intro lints groups lintName g h1 h2
    rw [UtilLints.matchingOf.eq_def]
    dsimp only
    rw [h1]
    dsimp only
    rw [h2]
  · intro lints groups lintName h1 h2
    rw [UtilLints.matchingOf.eq_def]
    dsimp only
    rw [h1]
    dsimp only
    rw [h2]
  · intro lints groups manifest manifestPath wsContents wsDocument wsPath diagLevel lintLevel
      reason st lintName contents path span hf
    rw [UtilLints.unknownLintLoop.eq_2, hf]
    rfl

theorem c9_amended_exact_match_suggestion_witness :
    UtilLints.matchingOf [c9WildLint] [] ("wild-lints") = some (c9WildLint.name, "lint") ∧
    UtilLints.matchingOf [] [UtilLints.SUSPICIOUS] ("suspicious") =
      some (UtilLints.SUSPICIOUS.name, "group") ∧
    UtilLints.matchingOf [c9WildLint] [] ("widl_lints") = none ∧
    UtilLints.unknownLintLoop [c9WildLint] [] c9Manifest ("Cargo.toml") ("") []
      ("ws/Cargo.toml") DiagLevel.warning LintLevel.warn LintLevelReason.default none
      ["widl_lints"] =
      some ([⟨⟨DiagLevel.warning, true,
        UtilLints.UNKNOWN_LINTS.desc ++ ": `" ++ "widl_lints" ++ "`",
        GroupElement.snippet ⟨c9Manifest.contents, "Cargo.toml", [⟨AnnKind.primary,
          (⟨⟨15, 25⟩, ⟨28, 34⟩⟩ : TomlSpan).key, none⟩]⟩ ::
          ((if (none : Option String).isNone then [GroupElement.message DiagLevel.note
              (UtilLints.UNKNOWN_LINTS.emittedSource LintLevel.warn LintLevelReason.default)]
            else []) ++
           (match (UtilLints.matchingOf [c9WildLint] [] ("widl_lints")).map
              UtilLints.similarNameHelp with
            | some h => [GroupElement.message DiagLevel.help h]
            | none => []))⟩ ::
        UtilLints.inheritedNoteGroups c9Manifest ("Cargo.toml") ("widl_lints"),
        LintLevel.warn.force⟩],
      if LintLevel.warn.isError then 1 else 0) := by
  have hspan9 : getKeyValueSpan c9Doc ["lints", "cargo", "widl_lints"] =
      some ⟨⟨15, 25⟩, ⟨28, 34⟩⟩ := by
    simp [getKeyValueSpan, findEntry, c9Doc, List.find?]
  have hfind9 : UtilLints.findLintSpan c9Manifest ("Cargo.toml") ("") [] ("ws/Cargo.toml")
      ("widl_lints") = some (c9Manifest.contents, "Cargo.toml", ⟨⟨15, 25⟩, ⟨28, 34⟩⟩) := by
    rw [UtilLints.findLintSpan.eq_def]
    rw [show c9Manifest.document = c9Doc from rfl]
    rw [hspan9]
  refine ⟨?_, ?_, ?_, ?_⟩
  · exact c9_amended_exact_match_suggestion.1 [c9WildLint] [] ("wild-lints") c9WildLint rfl
  · exact c9_amended_exact_match_suggestion.2.1 [] [UtilLints.SUSPICIOUS] ("suspicious")
      UtilLints.SUSPICIOUS rfl rfl
  · exact c9_amended_exact_match_suggestion.2.2.1 [c9WildLint] [] ("widl_lints") rfl rfl
  · exact c9_amended_exact_match_suggestion.2.2.2.1 [c9WildLint] [] c9Manifest ("Cargo.toml")
      ("") [] ("ws/Cargo.toml") DiagLevel.warning LintLevel.warn LintLevelReason.default none
      ("widl_lints") c9Manifest.contents ("Cargo.toml") ⟨⟨15, 25⟩, ⟨28, 34⟩⟩ hfind9
